import Mathlib

/-!
Shallow embedding of `src/notification-server/src/main.rs` (lanelayer/cli-backend).

The server's pipeline logic is embedded as pure Lean functions over a `World`
oracle that records the outcome of every external effect the Rust code
performs (docker polls, `lane build` / `lane export` exit statuses, the
environment variables, and the contents of the export directory).  Each
embedded function returns, alongside its result, the list of external events
it triggered (`Event`), so that claims of the form "stage X never runs" are
statable as trace membership.
-/

namespace NotificationServer

/-- Exit status of an external process, as seen through Rust's
`std::process::ExitStatus`: whether `status.success()` holds (exit code 0),
and the string produced by its `Display` impl (used in error messages). -/
structure ExitStatus where
  success : Bool
  display : String
deriving Repr, DecidableEq

/-- One direct child of the export directory as the uploader observes it
(`WalkDir::new(..).min_depth(1).max_depth(1)`, entries with errors already
filtered out by `filter_map(|e| e.ok())`).  `name = none` models a file whose
name is not valid UTF-8 (`path.file_name().and_then(|n| n.to_str())` fails).
`meta`, `content` and `putStatus` are the outcomes of `tokio::fs::metadata`,
`tokio::fs::read` and `bucket.put_object` for this file: an error string for
a failed call, otherwise the size, the unit, and the HTTP status code. -/
structure FileData where
  name : Option String
  isFile : Bool
  meta : Except String Nat
  content : Except String Unit
  putStatus : Except String Nat

/-- The four environment variables consulted by `upload_to_tigris`. -/
structure Env where
  aws_access_key_id : Option String
  tigris_access_key_id : Option String
  aws_secret_access_key : Option String
  tigris_secret_access_key : Option String

/-- Oracle for all external effects of one `notify_handler` invocation.
`dockerPoll t` is the outcome of the `docker info` command started at second
`t` after the wait began (`.error e` = the command failed to execute, e.g.
spawn failure; `.ok b` = the command ran and `b` is `status.success()`).
`pollDur t` is how many whole seconds that command took.  `buildStatus` and
`exportStatus` are spawn/wait errors or the exit status of `lane build` /
`lane export`.  `exportDirExists` is `Path::new("lane-export-temp").exists()`
and `entries` its direct children.  `now` stands for `Utc::now()`. -/
structure World where
  env : Env
  dockerPoll : Nat → Except String Bool
  pollDur : Nat → Nat
  buildStatus : Except String ExitStatus
  exportStatus : Except String ExitStatus
  exportDirExists : Bool
  entries : List FileData
  now : Nat

/-- External events triggered by the handler: one `docker info` poll (tagged
with the second at which it started), spawning the `lane build` process (with
the `--image` argument passed to it), spawning the `lane export` process, and
attempting the upload of one object (with its S3 key). -/
inductive Event where
  | dockerPoll (t : Nat)
  | buildSpawn (image : String)
  | exportSpawn
  | putObject (key : String)
deriving Repr, DecidableEq

/-- Mirrors `#[derive(Deserialize)] struct LaneNotification`. -/
structure LaneNotification where
  notification_type : String
  registry_path : String
  original_path : String
  timestamp : Nat
  success : Bool
  profile : String
  platforms : List String
  digest : Option String

/-- Mirrors `#[derive(Serialize)] struct NotificationResponse`. -/
structure NotificationResponse where
  message : String
  container : String
  status : String
  timestamp : Nat
deriving Repr, DecidableEq

/-- `const MAX_WAIT: Duration = Duration::from_secs(90)` in `wait_for_docker`. -/
def MAX_WAIT : Nat := 90

/-- `const POLL_INTERVAL: Duration = Duration::from_secs(1)` in `wait_for_docker`. -/
def POLL_INTERVAL : Nat := 1

/-- The error message of `wait_for_docker` on timeout. -/
def timeoutMsg : String := "Docker did not become ready within 90 seconds"

/-- The loop of `wait_for_docker`, entered with `t` seconds elapsed since the
deadline was taken.  `while Instant::now() < deadline`: poll, return `Ok` if
the poll reports success, propagate the error if the poll itself failed to
run (`output().await?`), otherwise sleep `POLL_INTERVAL` and loop.  A failed
poll started at `t` ends at `t + pollDur t`, and the next one starts after
the 1-second sleep. -/
def wait_for_docker_from (w : World) (t : Nat) : List Event × Except String Unit :=
  if h : t < MAX_WAIT then
    match w.dockerPoll t with
    | .error e => ([Event.dockerPoll t], .error e)
    | .ok true => ([Event.dockerPoll t], .ok ())
    | .ok false =>
      let rest := wait_for_docker_from w (t + w.pollDur t + POLL_INTERVAL)
      (Event.dockerPoll t :: rest.1, rest.2)
  else
    ([], .error timeoutMsg)
termination_by MAX_WAIT - t
decreasing_by simp only [MAX_WAIT, POLL_INTERVAL] at h ⊢; omega

/-- `wait_for_docker`: wait for the Docker daemon, starting at elapsed time 0. -/
def wait_for_docker (w : World) : List Event × Except String Unit :=
  wait_for_docker_from w 0

/-- `run_lane_build`: wait for docker (propagating its error with `?`), then
spawn `lane build prod --image <image_with_digest>` and map the exit status. -/
def run_lane_build (image_with_digest : String) (w : World) :
    List Event × Except String String :=
  let wres := wait_for_docker w
  match wres.2 with
  | .error e => (wres.1, .error e)
  | .ok _ =>
    match w.buildStatus with
    | .error e => (wres.1 ++ [Event.buildSpawn image_with_digest], .error e)
    | .ok status =>
      if status.success then
        (wres.1 ++ [Event.buildSpawn image_with_digest],
          .ok "Lane build completed successfully")
      else
        (wres.1 ++ [Event.buildSpawn image_with_digest],
          .error ("Lane build failed with exit code " ++ status.display))

/-- `upload_file`: stat the file, read it, `put_object`, and accept exactly
HTTP status code 200. -/
def upload_file (f : FileData) (s3_key : String) : Except String Unit :=
  match f.meta with
  | .error e => .error ("Failed to get metadata for file: " ++ e)
  | .ok _ =>
    match f.content with
    | .error e => .error ("Failed to read file: " ++ e)
    | .ok _ =>
      match f.putStatus with
      | .error e =>
        .error ("Failed to upload to s3://lane-exports/" ++ s3_key ++ ": " ++ e)
      | .ok code =>
        if code == 200 then .ok ()
        else .error ("Upload failed with status code: " ++ toString code)

/-- `var("AWS_..").or_else(|_| var("TIGRIS_.."))`: first present wins. -/
def getCredential (primary fallback : Option String) : Option String :=
  match primary with
  | some v => some v
  | none => fallback

/-- The `for entry in WalkDir..` loop of `upload_to_tigris`, carrying the
`uploaded_count` / `error_count` accumulators.  Non-files are skipped; a
file with a non-UTF-8 name aborts the whole function
(`.ok_or("Invalid filename")?`); otherwise `upload_file` is attempted and
its outcome counted without stopping the loop. -/
def uploadLoop (digest : String) :
    List FileData → Nat → Nat → List Event × Except String (Nat × Nat)
  | [], uploaded_count, error_count => ([], .ok (uploaded_count, error_count))
  | f :: rest, uploaded_count, error_count =>
    if f.isFile then
      match f.name with
      | none => ([], .error "Invalid filename")
      | some filename =>
        let s3_key := digest ++ "/" ++ filename
        let tail :=
          match upload_file f s3_key with
          | .ok _ => uploadLoop digest rest (uploaded_count + 1) error_count
          | .error _ => uploadLoop digest rest uploaded_count (error_count + 1)
        (Event.putObject s3_key :: tail.1, tail.2)
    else
      uploadLoop digest rest uploaded_count error_count

/-- `upload_to_tigris`: resolve the two credentials from the environment
(each with its fallback variable), check that `lane-export-temp` exists, and
run the upload loop over its direct children.  The `.ok` value is the final
`(uploaded_count, error_count)` pair the function logs on completion
(`Credentials::new` / `Bucket::new` with both keys present do not fail). -/
def upload_to_tigris (w : World) (digest : String) :
    List Event × Except String (Nat × Nat) :=
  match getCredential w.env.aws_access_key_id w.env.tigris_access_key_id with
  | none =>
    ([], .error "AWS_ACCESS_KEY_ID or TIGRIS_ACCESS_KEY_ID environment variable not set")
  | some _ =>
    match getCredential w.env.aws_secret_access_key w.env.tigris_secret_access_key with
    | none =>
      ([], .error "AWS_SECRET_ACCESS_KEY or TIGRIS_SECRET_ACCESS_KEY environment variable not set")
    | some _ =>
      if !w.exportDirExists then
        ([], .error "Export directory \x27lane-export-temp\x27 does not exist")
      else
        uploadLoop digest w.entries 0 0

/-- `run_lane_export_and_upload`: spawn `lane export prod lane-export-temp`,
fail on a non-zero exit, then upload, discarding the counts. -/
def run_lane_export_and_upload (w : World) (digest : String) :
    List Event × Except String Unit :=
  match w.exportStatus with
  | .error e => ([Event.exportSpawn], .error e)
  | .ok status =>
    if !status.success then
      ([Event.exportSpawn], .error ("Lane export failed with exit code " ++ status.display))
    else
      let u := upload_to_tigris w digest
      (Event.exportSpawn :: u.1,
        match u.2 with
        | .ok _ => .ok ()
        | .error e => .error e)

/-- `registry_path.split(':').next().unwrap_or(..)`: the component of the
registry path before its first colon (`split` always yields at least one
element, so this is everything before the first `:`, or the whole string
when it has no colon). -/
def repoComponent (registry_path : String) : String :=
  (registry_path.toList.takeWhile (fun c => c != ':')).asString

/-- `notify_handler`: the full pipeline, returning the event trace, the HTTP
status code and the JSON response body. -/
def notify_handler (n : LaneNotification) (w : World) :
    List Event × (Nat × NotificationResponse) :=
  if n.success then
    match n.digest with
    | some digest =>
      let image_with_digest := repoComponent n.registry_path ++ "@" ++ digest
      let b := run_lane_build image_with_digest w
      match b.2 with
      | .ok _ =>
        let eu := run_lane_export_and_upload w digest
        match eu.2 with
        | .ok _ =>
          (b.1 ++ eu.1,
            (200,
              { message := "✅ Notification processed, Lane build and export completed successfully!"
                container := image_with_digest
                status := "Success"
                timestamp := w.now }))
        | .error e =>
          (b.1 ++ eu.1,
            (200,
              { message := "✅ Lane build succeeded but export failed: " ++ e
                container := image_with_digest
                status := "Partial Success"
                timestamp := w.now }))
      | .error e =>
        (b.1,
          (500,
            { message := "❌ Lane build failed: " ++ e
              container := image_with_digest
              status := "Failed"
              timestamp := w.now }))
    | none =>
      ([],
        (200,
          { message := "⚠️ No digest provided in notification"
            container := n.registry_path
            status := "Warning"
            timestamp := w.now }))
  else
    ([],
      (200,
        { message := "⚠️ Lane push failed"
          container := n.registry_path
          status := "Failed"
          timestamp := w.now }))

/-- Whether an `Except` result is a success. -/
def exOk {α : Type} : Except String α → Bool
  | .ok _ => true
  | .error _ => false

/-- The per-file outcome the upload loop observes for a file entry: the
result of `upload_file` under key `digest/filename`, or the invalid-filename
error when the name is not valid UTF-8. -/
def uploadOutcome (digest : String) (f : FileData) : Except String Unit :=
  match f.name with
  | some filename => upload_file f (digest ++ "/" ++ filename)
  | none => .error "Invalid filename"

/-! ### Helper lemmas about the docker wait loop -/

theorem wait_from_timeout_aux (w : World)
    (hp : ∀ t, t < MAX_WAIT → w.dockerPoll t = .ok false) :
    ∀ k t0, MAX_WAIT - t0 ≤ k → (wait_for_docker_from w t0).2 = .error timeoutMsg := by
  intro k
  induction k with
  | zero =>
    intro t0 h0
    have hnot : ¬ t0 < MAX_WAIT := by omega
    rw [wait_for_docker_from]
    simp [hnot]
  | succ k ih =>
    intro t0 hk
    rw [wait_for_docker_from]
    by_cases h : t0 < MAX_WAIT
    · simp only [dif_pos h]
      rw [hp t0 h]
      exact ih (t0 + w.pollDur t0 + POLL_INTERVAL)
        (by simp only [MAX_WAIT, POLL_INTERVAL] at *; omega)
    · simp [h]

/-- If every poll within the deadline reports not-ready, the wait times out. -/
theorem wait_timeout (w : World)
    (hp : ∀ t, t < MAX_WAIT → w.dockerPoll t = .ok false) :
    (wait_for_docker w).2 = .error timeoutMsg :=
  wait_from_timeout_aux w hp MAX_WAIT 0 (by omega)

theorem wait_from_events_aux (w : World) :
    ∀ k t0, MAX_WAIT - t0 ≤ k → ∀ ev ∈ (wait_for_docker_from w t0).1,
      ∃ t, ev = Event.dockerPoll t ∧ t0 ≤ t ∧ t < MAX_WAIT := by
  intro k
  induction k with
  | zero =>
    intro t0 h0 ev hev
    have hnot : ¬ t0 < MAX_WAIT := by omega
    rw [wait_for_docker_from] at hev
    simp [hnot] at hev
  | succ k ih =>
    intro t0 hk ev hev
    rw [wait_for_docker_from] at hev
    by_cases h : t0 < MAX_WAIT
    · simp only [dif_pos h] at hev
      rcases hpoll : w.dockerPoll t0 with e | b
      · rw [hpoll] at hev
        simp at hev
        exact ⟨t0, hev, le_refl _, h⟩
      · rcases b with _ | _
        · rw [hpoll] at hev
          simp at hev
          rcases hev with hev | hev
          · exact ⟨t0, hev, le_refl _, h⟩
          · rcases ih (t0 + w.pollDur t0 + POLL_INTERVAL)
              (by simp only [MAX_WAIT, POLL_INTERVAL] at *; omega) ev hev with
              ⟨t, het, hle, hlt⟩
            exact ⟨t, het, by omega, hlt⟩
        · rw [hpoll] at hev
          simp at hev
          exact ⟨t0, hev, le_refl _, h⟩
    · simp [h] at hev

/-- Every event of the wait loop is a `dockerPoll` started strictly before the
90-second deadline. -/
theorem wait_events (w : World) :
    ∀ ev ∈ (wait_for_docker w).1, ∃ t, ev = Event.dockerPoll t ∧ t < MAX_WAIT := by
  intro ev hev
  rcases wait_from_events_aux w MAX_WAIT 0 (by omega) ev hev with ⟨t, het, _, hlt⟩
  exact ⟨t, het, hlt⟩

theorem wait_from_step_aux (w : World) :
    ∀ k t0, MAX_WAIT - t0 ≤ k →
      ∀ t, Event.dockerPoll t ∈ (wait_for_docker_from w t0).1 →
        t = t0 ∨ ∃ s, Event.dockerPoll s ∈ (wait_for_docker_from w t0).1 ∧
          t = s + w.pollDur s + POLL_INTERVAL := by
  intro k
  induction k with
  | zero =>
    intro t0 h0 t ht
    have hnot : ¬ t0 < MAX_WAIT := by omega
    rw [wait_for_docker_from] at ht
    simp [hnot] at ht
  | succ k ih =>
    intro t0 hk t ht
    by_cases h : t0 < MAX_WAIT
    · rw [wait_for_docker_from] at ht
      simp only [dif_pos h] at ht
      rcases hpoll : w.dockerPoll t0 with e | b
      · rw [hpoll] at ht
        simp at ht
        exact Or.inl ht
      · rcases b with _ | _
        · rw [hpoll] at ht
          simp at ht
          have hmem : ∀ u, Event.dockerPoll u ∈
              (wait_for_docker_from w (t0 + w.pollDur t0 + POLL_INTERVAL)).1 →
              Event.dockerPoll u ∈ (wait_for_docker_from w t0).1 := by
            intro u hu
            rw [wait_for_docker_from]
            simp only [dif_pos h]
            rw [hpoll]
            simp
            exact Or.inr hu
          have hself : Event.dockerPoll t0 ∈ (wait_for_docker_from w t0).1 := by
            rw [wait_for_docker_from]
            simp only [dif_pos h]
            rw [hpoll]
            simp
          rcases ht with ht | ht
          · exact Or.inl ht
          · rcases ih (t0 + w.pollDur t0 + POLL_INTERVAL)
              (by simp only [MAX_WAIT, POLL_INTERVAL] at *; omega) t ht with h1 | ⟨s, hs, heq⟩
            · exact Or.inr ⟨t0, hself, h1⟩
            · exact Or.inr ⟨s, hmem s hs, heq⟩
        · rw [hpoll] at ht
          simp at ht
          exact Or.inl ht
    · rw [wait_for_docker_from] at ht
      simp [h] at ht

/-- Any poll after the first starts exactly one second (the fixed
`POLL_INTERVAL`) after the previous poll finished. -/
theorem wait_step (w : World) :
    ∀ t, Event.dockerPoll t ∈ (wait_for_docker w).1 →
      t = 0 ∨ ∃ s, Event.dockerPoll s ∈ (wait_for_docker w).1 ∧
        t = s + w.pollDur s + POLL_INTERVAL :=
  wait_from_step_aux w MAX_WAIT 0 (by omega)

/-- If the very first `docker info` invocation fails to execute, the wait
returns that error at once, after exactly one poll. -/
theorem wait_first_error (w : World) (e : String) (he : w.dockerPoll 0 = .error e) :
    wait_for_docker w = ([Event.dockerPoll 0], .error e) := by
  rw [wait_for_docker, wait_for_docker_from]
  have h0 : (0 : Nat) < MAX_WAIT := by simp [MAX_WAIT]
  simp only [dif_pos h0]
  rw [he]

/-- If the very first poll reports ready, the wait succeeds at once. -/
theorem wait_first_ok (w : World) (he : w.dockerPoll 0 = .ok true) :
    wait_for_docker w = ([Event.dockerPoll 0], .ok ()) := by
  rw [wait_for_docker, wait_for_docker_from]
  have h0 : (0 : Nat) < MAX_WAIT := by simp [MAX_WAIT]
  simp only [dif_pos h0]
  rw [he]

/-! ### Helper lemmas about the upload loop -/

/-- With every file name valid UTF-8, the loop never aborts: it returns the
accumulators plus, respectively, the number of file entries whose upload
succeeded and the number whose upload failed. -/
theorem uploadLoop_counts (digest : String) :
    ∀ entries u e, (∀ f ∈ entries, f.isFile = true → f.name.isSome = true) →
      (uploadLoop digest entries u e).2 =
        .ok (u + (entries.filter (fun f => f.isFile && exOk (uploadOutcome digest f))).length,
             e + (entries.filter (fun f => f.isFile && !exOk (uploadOutcome digest f))).length) := by
  intro entries
  induction entries with
  | nil => intro u e _; simp [uploadLoop]
  | cons f rest ih =>
    intro u e hnames
    have hrest : ∀ g ∈ rest, g.isFile = true → g.name.isSome = true := by
      intro g hg
      exact hnames g (List.mem_cons_of_mem f hg)
    by_cases hf : f.isFile
    · have hn := hnames f (List.mem_cons_self f rest) hf
      rcases hname : f.name with _ | nm
      · rw [hname] at hn; simp at hn
      · have houtcome : uploadOutcome digest f = upload_file f (digest ++ "/" ++ nm) := by
          rw [uploadOutcome, hname]
        rw [uploadLoop]
        simp only [hf, if_true, hname]
        rcases hres : upload_file f (digest ++ "/" ++ nm) with err | r
        · have hp : (f.isFile && exOk (uploadOutcome digest f)) = false := by
            rw [houtcome, hres]; simp [exOk]
          have hq : (f.isFile && !exOk (uploadOutcome digest f)) = true := by
            rw [houtcome, hres]; simp [hf, exOk]
          simp only [hres]
          rw [ih u (e + 1) hrest]
          simp only [List.filter_cons, hp, hq]
          simp only [Bool.false_eq_true, if_false, if_true, List.length_cons,
            Except.ok.injEq, Prod.mk.injEq]
          constructor <;> first | trivial | omega
        · have hp : (f.isFile && exOk (uploadOutcome digest f)) = true := by
            rw [houtcome, hres]; simp [hf, exOk]
          have hq : (f.isFile && !exOk (uploadOutcome digest f)) = false := by
            rw [houtcome, hres]; simp [exOk]
          simp only [hres]
          rw [ih (u + 1) e hrest]
          simp only [List.filter_cons, hp, hq]
          simp only [Bool.false_eq_true, if_false, if_true, List.length_cons,
            Except.ok.injEq, Prod.mk.injEq]
          constructor <;> first | trivial | omega
    · rw [uploadLoop]
      simp only [Bool.not_eq_true] at hf
      simp only [hf, Bool.false_eq_true, if_false]
      rw [ih u e hrest]
      simp [List.filter_cons, hf]

/-- Every event of the upload loop is a `putObject`. -/
theorem uploadLoop_events (digest : String) :
    ∀ entries u e, ∀ ev ∈ (uploadLoop digest entries u e).1,
      ∃ key, ev = Event.putObject key := by
  intro entries
  induction entries with
  | nil => intro u e ev hev; simp [uploadLoop] at hev
  | cons f rest ih =>
    intro u e ev hev
    rw [uploadLoop] at hev
    by_cases hf : f.isFile
    · simp only [hf, if_true] at hev
      rcases hname : f.name with _ | nm
      · rw [hname] at hev; simp at hev
      · rw [hname] at hev
        rcases hres : upload_file f (digest ++ "/" ++ nm) with err | r
        · simp only [hres, List.mem_cons] at hev
          rcases hev with hev | hev
          · exact ⟨digest ++ "/" ++ nm, hev⟩
          · exact ih u (e + 1) ev hev
        · simp only [hres, List.mem_cons] at hev
          rcases hev with hev | hev
          · exact ⟨digest ++ "/" ++ nm, hev⟩
          · exact ih (u + 1) e ev hev
    · simp only [Bool.not_eq_true] at hf
      simp only [hf, Bool.false_eq_true, if_false] at hev
      exact ih u e ev hev

/-- With every file name valid, the loop attempts an upload for every file
entry: a failing file does not stop the enumeration of the ones after it. -/
theorem uploadLoop_attempts (digest : String) :
    ∀ entries u e, (∀ f ∈ entries, f.isFile = true → f.name.isSome = true) →
      ∀ f ∈ entries, f.isFile = true → ∀ nm, f.name = some nm →
        Event.putObject (digest ++ "/" ++ nm) ∈ (uploadLoop digest entries u e).1 := by
  intro entries
  induction entries with
  | nil => intro u e _ f hf; simp at hf
  | cons g rest ih =>
    intro u e hnames f hf hfile nm hnm
    have hrest : ∀ h ∈ rest, h.isFile = true → h.name.isSome = true := by
      intro h hh
      exact hnames h (List.mem_cons_of_mem g hh)
    by_cases hg : g.isFile
    · have hn := hnames g (List.mem_cons_self g rest) hg
      rcases hgname : g.name with _ | gnm
      · rw [hgname] at hn; simp at hn
      · rw [uploadLoop]
        simp only [hg, if_true, hgname]
        rcases hres : upload_file g (digest ++ "/" ++ gnm) with err | r
        · simp only [hres, List.mem_cons]
          rcases List.mem_cons.mp hf with hfg | hfr
          · subst hfg
            rw [hgname] at hnm
            cases hnm
            exact Or.inl rfl
          · exact Or.inr (ih u (e + 1) hrest f hfr hfile nm hnm)
        · simp only [hres, List.mem_cons]
          rcases List.mem_cons.mp hf with hfg | hfr
          · subst hfg
            rw [hgname] at hnm
            cases hnm
            exact Or.inl rfl
          · exact Or.inr (ih (u + 1) e hrest f hfr hfile nm hnm)
    · simp only [Bool.not_eq_true] at hg
      rw [uploadLoop]
      simp only [hg, Bool.false_eq_true, if_false]
      rcases List.mem_cons.mp hf with hfg | hfr
      · subst hfg
        rw [hg] at hfile
        cases hfile
      · exact ih u e hrest f hfr hfile nm hnm

/-- Every event of `upload_to_tigris` is a `putObject`. -/
theorem upload_to_tigris_events (w : World) (digest : String) :
    ∀ ev ∈ (upload_to_tigris w digest).1, ∃ key, ev = Event.putObject key := by
  intro ev hev
  rw [upload_to_tigris] at hev
  rcases hc1 : getCredential w.env.aws_access_key_id w.env.tigris_access_key_id with _ | a
  · rw [hc1] at hev; simp at hev
  · rw [hc1] at hev
    rcases hc2 : getCredential w.env.aws_secret_access_key w.env.tigris_secret_access_key with _ | s
    · rw [hc2] at hev; simp at hev
    · rw [hc2] at hev
      by_cases hd : w.exportDirExists
      · simp only [hd, Bool.not_true, Bool.false_eq_true, if_false] at hev
        exact uploadLoop_events digest w.entries 0 0 ev hev
      · simp only [Bool.not_eq_true] at hd
        simp [hd] at hev

/-- Every event of `run_lane_export_and_upload` is the export spawn or a
`putObject`. -/
theorem export_and_upload_events (w : World) (digest : String) :
    ∀ ev ∈ (run_lane_export_and_upload w digest).1,
      ev = Event.exportSpawn ∨ ∃ key, ev = Event.putObject key := by
  intro ev hev
  rw [run_lane_export_and_upload] at hev
  rcases hst : w.exportStatus with e | status
  · rw [hst] at hev
    simp at hev
    exact Or.inl hev
  · rw [hst] at hev
    by_cases hs : status.success
    · simp only [hs, Bool.not_true, Bool.false_eq_true, if_false, List.mem_cons] at hev
      rcases hev with hev | hev
      · exact Or.inl hev
      · exact Or.inr (upload_to_tigris_events w digest ev hev)
    · simp only [Bool.not_eq_true] at hs
      simp only [hs, Bool.not_false, if_true, List.mem_singleton] at hev
      exact Or.inl hev

/-! ### Reduction lemmas for the pipeline stages -/

theorem run_lane_build_wait_err (image : String) (w : World) (e : String)
    (hw : (wait_for_docker w).2 = .error e) :
    run_lane_build image w = ((wait_for_docker w).1, .error e) := by
  simp [run_lane_build, hw]

theorem run_lane_build_ok_eq (image : String) (w : World) (bst : ExitStatus)
    (hw : (wait_for_docker w).2 = .ok ()) (hb : w.buildStatus = .ok bst)
    (hbs : bst.success = true) :
    run_lane_build image w =
      ((wait_for_docker w).1 ++ [Event.buildSpawn image],
        .ok "Lane build completed successfully") := by
  simp [run_lane_build, hw, hb, hbs]

theorem run_lane_build_exit_err (image : String) (w : World) (bst : ExitStatus)
    (hw : (wait_for_docker w).2 = .ok ()) (hb : w.buildStatus = .ok bst)
    (hbs : bst.success = false) :
    run_lane_build image w =
      ((wait_for_docker w).1 ++ [Event.buildSpawn image],
        .error ("Lane build failed with exit code " ++ bst.display)) := by
  simp [run_lane_build, hw, hb, hbs]

/-- Every event of `run_lane_build` is a docker poll or the build spawn. -/
theorem run_lane_build_events (image : String) (w : World) :
    ∀ ev ∈ (run_lane_build image w).1,
      (∃ t, ev = Event.dockerPoll t) ∨ ev = Event.buildSpawn image := by
  intro ev hev
  rw [run_lane_build] at hev
  rcases hw : (wait_for_docker w).2 with e | u
  · rw [hw] at hev
    simp only at hev
    rcases wait_events w ev hev with ⟨t, het, _⟩
    exact Or.inl ⟨t, het⟩
  · rw [hw] at hev
    simp only at hev
    have hsplit : ev ∈ (wait_for_docker w).1 ∨ ev = Event.buildSpawn image := by
      rcases hb : w.buildStatus with e | status
      · rw [hb] at hev
        simp at hev
        rcases hev with hev | hev
        · exact Or.inl hev
        · exact Or.inr hev
      · rw [hb] at hev
        by_cases hs : status.success
        · simp only [hs, if_true, List.mem_append, List.mem_singleton] at hev
          exact hev
        · simp only [Bool.not_eq_true] at hs
          simp only [hs, Bool.false_eq_true, if_false, List.mem_append,
            List.mem_singleton] at hev
          exact hev
    rcases hsplit with hmem | heq
    · rcases wait_events w ev hmem with ⟨t, het, _⟩
      exact Or.inl ⟨t, het⟩
    · exact Or.inr heq

/-- If the build was spawned, the docker wait had succeeded. -/
theorem build_spawn_implies_wait_ok (image : String) (w : World)
    (h : Event.buildSpawn image ∈ (run_lane_build image w).1) :
    (wait_for_docker w).2 = .ok () := by
  rcases hw : (wait_for_docker w).2 with e | u
  · rw [run_lane_build] at h
    rw [hw] at h
    simp only at h
    rcases wait_events w _ h with ⟨t, het, _⟩
    simp at het
  · cases u; rfl

theorem export_spawn_fail_eq (w : World) (digest : String) (est : ExitStatus)
    (he : w.exportStatus = .ok est) (hes : est.success = false) :
    run_lane_export_and_upload w digest =
      ([Event.exportSpawn], .error ("Lane export failed with exit code " ++ est.display)) := by
  simp [run_lane_export_and_upload, he, hes]

theorem upload_err_of_dir_missing (w : World) (digest : String)
    (hd : w.exportDirExists = false) :
    exOk (upload_to_tigris w digest).2 = false := by
  rw [upload_to_tigris]
  rcases hc1 : getCredential w.env.aws_access_key_id w.env.tigris_access_key_id with _ | a
  · rfl
  · rcases hc2 : getCredential w.env.aws_secret_access_key w.env.tigris_secret_access_key with _ | s
    · rfl
    · simp [hd, exOk]

/-- With both credentials resolvable and the export directory present,
`upload_to_tigris` is exactly the upload loop over the directory entries. -/
theorem upload_to_tigris_loop_eq (w : World) (digest : String)
    (hacc : (getCredential w.env.aws_access_key_id w.env.tigris_access_key_id).isSome = true)
    (hsec : (getCredential w.env.aws_secret_access_key w.env.tigris_secret_access_key).isSome = true)
    (hd : w.exportDirExists = true) :
    upload_to_tigris w digest = uploadLoop digest w.entries 0 0 := by
  rw [upload_to_tigris]
  rcases hc1 : getCredential w.env.aws_access_key_id w.env.tigris_access_key_id with _ | a
  · rw [hc1] at hacc; simp at hacc
  · rcases hc2 : getCredential w.env.aws_secret_access_key w.env.tigris_secret_access_key with _ | s
    · rw [hc2] at hsec; simp at hsec
    · simp [hd]

theorem eu_err_of_dir_missing (w : World) (digest : String)
    (hd : w.exportDirExists = false) :
    exOk (run_lane_export_and_upload w digest).2 = false := by
  rw [run_lane_export_and_upload]
  rcases he : w.exportStatus with e | est
  · rfl
  · by_cases hes : est.success
    · simp only [hes, Bool.not_true, Bool.false_eq_true, if_false]
      have hu := upload_err_of_dir_missing w digest hd
      rcases hru : (upload_to_tigris w digest).2 with e | r
      · rfl
      · rw [hru] at hu
        simp [exOk] at hu
    · simp only [Bool.not_eq_true] at hes
      simp only [hes, Bool.not_false, if_true]
      rfl

/-! ### Reduction lemmas for `notify_handler` -/

theorem notify_build_fail (n : LaneNotification) (w : World) (digest : String)
    (h1 : n.success = true) (h2 : n.digest = some digest) (e : String)
    (hb : (run_lane_build (repoComponent n.registry_path ++ "@" ++ digest) w).2 = .error e) :
    notify_handler n w =
      ((run_lane_build (repoComponent n.registry_path ++ "@" ++ digest) w).1,
        (500,
          { message := "❌ Lane build failed: " ++ e
            container := repoComponent n.registry_path ++ "@" ++ digest
            status := "Failed"
            timestamp := w.now })) := by
  simp only [notify_handler, h1, h2, if_true]
  rw [hb]

theorem notify_partial (n : LaneNotification) (w : World) (digest : String)
    (h1 : n.success = true) (h2 : n.digest = some digest) (o : String) (e : String)
    (hb : (run_lane_build (repoComponent n.registry_path ++ "@" ++ digest) w).2 = .ok o)
    (he : (run_lane_export_and_upload w digest).2 = .error e) :
    notify_handler n w =
      ((run_lane_build (repoComponent n.registry_path ++ "@" ++ digest) w).1 ++
          (run_lane_export_and_upload w digest).1,
        (200,
          { message := "✅ Lane build succeeded but export failed: " ++ e
            container := repoComponent n.registry_path ++ "@" ++ digest
            status := "Partial Success"
            timestamp := w.now })) := by
  simp only [notify_handler, h1, h2, if_true]
  rw [hb, he]

theorem notify_success (n : LaneNotification) (w : World) (digest : String)
    (h1 : n.success = true) (h2 : n.digest = some digest) (o : String)
    (hb : (run_lane_build (repoComponent n.registry_path ++ "@" ++ digest) w).2 = .ok o)
    (he : (run_lane_export_and_upload w digest).2 = .ok ()) :
    notify_handler n w =
      ((run_lane_build (repoComponent n.registry_path ++ "@" ++ digest) w).1 ++
          (run_lane_export_and_upload w digest).1,
        (200,
          { message := "✅ Notification processed, Lane build and export completed successfully!"
            container := repoComponent n.registry_path ++ "@" ++ digest
            status := "Success"
            timestamp := w.now })) := by
  simp only [notify_handler, h1, h2, if_true]
  rw [hb, he]

/-! ### Concrete worlds and notifications used as witnesses -/

/-- A file whose upload will succeed (put returns 200). -/
def fileOk (nm : String) : FileData :=
  { name := some nm, isFile := true, meta := .ok 100, content := .ok (), putStatus := .ok 200 }

/-- A file whose upload will fail (put returns 500). -/
def fileBad (nm : String) : FileData :=
  { name := some nm, isFile := true, meta := .ok 100, content := .ok (), putStatus := .ok 500 }

/-- A file whose put returns 201: a 2xx response the code rejects. -/
def filePut201 : FileData :=
  { name := some "a.tar", isFile := true, meta := .ok 10, content := .ok (), putStatus := .ok 201 }

/-- An environment with no storage credentials at all. -/
def envEmpty : Env := ⟨none, none, none, none⟩

/-- An environment with the primary credential pair set. -/
def envFull : Env := ⟨some "AKIA", none, some "SECRET", none⟩

/-- A world where docker is ready at once, both processes exit 0 and the
export directory exists but is empty; no credentials are set. -/
def wDefault : World :=
  { env := envEmpty
    dockerPoll := fun _ => .ok true
    pollDur := fun _ => 0
    buildStatus := .ok ⟨true, "exit status: 0"⟩
    exportStatus := .ok ⟨true, "exit status: 0"⟩
    exportDirExists := true
    entries := []
    now := 0 }

/-- A fully healthy world whose export directory holds three files, one of
which will fail to upload. -/
def wThreeFiles : World :=
  { env := envFull
    dockerPoll := fun _ => .ok true
    pollDur := fun _ => 0
    buildStatus := .ok ⟨true, "exit status: 0"⟩
    exportStatus := .ok ⟨true, "exit status: 0"⟩
    exportDirExists := true
    entries := [fileOk "a.tar", fileBad "b.tar", fileOk "c.tar"]
    now := 0 }

/-- A notification for a failed push. -/
def nPushFailed : LaneNotification :=
  { notification_type := "registry_push"
    registry_path := "registry.example.com/app:latest"
    original_path := "app:latest"
    timestamp := 0
    success := false
    profile := "prod"
    platforms := ["linux/amd64"]
    digest := some "sha256:abc" }

/-- A successful push notification carrying a digest. -/
def nSuccess : LaneNotification :=
  { notification_type := "registry_push"
    registry_path := "registry.example.com/app:latest"
    original_path := "app:latest"
    timestamp := 0
    success := true
    profile := "prod"
    platforms := ["linux/amd64"]
    digest := some "sha256:abc" }

/-- A successful push notification with no digest. -/
def nNoDigest : LaneNotification :=
  { notification_type := "registry_push"
    registry_path := "registry.example.com/app:latest"
    original_path := "app:latest"
    timestamp := 0
    success := true
    profile := "prod"
    platforms := ["linux/amd64"]
    digest := none }

/-! ### Claim theorems -/

/-- C8: for every notification with `success == false`, the outcome is the
Failed status with the fixed push-failed message, and no external process at
all is invoked (the event trace is empty, so in particular no build, export
or upload runs). -/
theorem c8_push_failed (n : LaneNotification) (w : World) (h : n.success = false) :
    (notify_handler n w).1 = [] ∧
    (notify_handler n w).2.2.status = "Failed" ∧
    (notify_handler n w).2.2.message = "⚠️ Lane push failed" := by
  simp [notify_handler, h]

/-- Witness for C8 at a concrete failed-push notification. -/
theorem c8_push_failed_witness :
    nPushFailed.success = false ∧
    ((notify_handler nPushFailed wDefault).1 = [] ∧
      (notify_handler nPushFailed wDefault).2.2.status = "Failed" ∧
      (notify_handler nPushFailed wDefault).2.2.message = "⚠️ Lane push failed") :=
  ⟨rfl, c8_push_failed nPushFailed wDefault rfl⟩

/-- C9: for every notification with `success == true` and no digest, the
outcome is Warning, reported with HTTP status 200, and no build, export or
upload process is invoked (empty event trace). -/
theorem c9_no_digest (n : LaneNotification) (w : World)
    (h1 : n.success = true) (h2 : n.digest = none) :
    (notify_handler n w).1 = [] ∧
    (notify_handler n w).2.1 = 200 ∧
    (notify_handler n w).2.2.status = "Warning" := by
  simp [notify_handler, h1, h2]

/-- Witness for C9 at a concrete digest-less notification. -/
theorem c9_no_digest_witness :
    nNoDigest.success = true ∧ nNoDigest.digest = none ∧
    ((notify_handler nNoDigest wDefault).1 = [] ∧
      (notify_handler nNoDigest wDefault).2.1 = 200 ∧
      (notify_handler nNoDigest wDefault).2.2.status = "Warning") :=
  ⟨rfl, rfl, c9_no_digest nNoDigest wDefault rfl rfl⟩

/-- Every event of `notify_handler` on a successful digested notification is
a docker poll, the build spawn with the resolved image, the export spawn, or
an object put. -/
theorem notify_events (n : LaneNotification) (w : World) (digest : String)
    (h1 : n.success = true) (h2 : n.digest = some digest) :
    ∀ ev ∈ (notify_handler n w).1,
      (∃ t, ev = Event.dockerPoll t) ∨
      ev = Event.buildSpawn (repoComponent n.registry_path ++ "@" ++ digest) ∨
      ev = Event.exportSpawn ∨
      (∃ key, ev = Event.putObject key) := by
  intro ev hev
  simp only [notify_handler, h1, h2, if_true] at hev
  rcases hb : (run_lane_build (repoComponent n.registry_path ++ "@" ++ digest) w).2 with e | o
  · rw [hb] at hev
    simp only at hev
    rcases run_lane_build_events _ w ev hev with h | h
    · exact Or.inl h
    · exact Or.inr (Or.inl h)
  · rw [hb] at hev
    rcases heu : (run_lane_export_and_upload w digest).2 with e | u
    · rw [heu] at hev
      simp only [List.mem_append] at hev
      rcases hev with hev | hev
      · rcases run_lane_build_events _ w ev hev with h | h
        · exact Or.inl h
        · exact Or.inr (Or.inl h)
      · rcases export_and_upload_events w digest ev hev with h | h
        · exact Or.inr (Or.inr (Or.inl h))
        · exact Or.inr (Or.inr (Or.inr h))
    · rw [heu] at hev
      simp only [List.mem_append] at hev
      rcases hev with hev | hev
      · rcases run_lane_build_events _ w ev hev with h | h
        · exact Or.inl h
        · exact Or.inr (Or.inl h)
      · rcases export_and_upload_events w digest ev hev with h | h
        · exact Or.inr (Or.inr (Or.inl h))
        · exact Or.inr (Or.inr (Or.inr h))

/-- C7: for every successful digested notification, any image reference the
build stage is invoked with is the registry path's component before its
first colon, concatenated with `@` and the digest; and concretely,
`registry.example.com/app:latest` with digest `sha256:abc` resolves to
`registry.example.com/app@sha256:abc`. -/
theorem c7_image_resolution (n : LaneNotification) (w : World) (digest img : String)
    (h1 : n.success = true) (h2 : n.digest = some digest)
    (hb : Event.buildSpawn img ∈ (notify_handler n w).1) :
    img = repoComponent n.registry_path ++ "@" ++ digest ∧
    (notify_handler n w).2.2.container = repoComponent n.registry_path ++ "@" ++ digest ∧
    repoComponent "registry.example.com/app:latest" ++ "@" ++ "sha256:abc" =
      "registry.example.com/app@sha256:abc" := by
  refine ⟨?_, ?_, by rfl⟩
  · rcases notify_events n w digest h1 h2 _ hb with ⟨t, ht⟩ | h | h | ⟨key, hk⟩
    · simp at ht
    · simpa using h
    · simp at h
    · simp at hk
  · simp only [notify_handler, h1, h2, if_true]
    rcases hbr : (run_lane_build (repoComponent n.registry_path ++ "@" ++ digest) w).2 with e | o
    · rfl
    · rcases heu : (run_lane_export_and_upload w digest).2 with e | u <;> rfl

/-- Witness for C7: a build spawn occurs in the healthy three-file world, and
the theorem's conclusions hold there. -/
theorem c7_image_resolution_witness :
    nSuccess.success = true ∧ nSuccess.digest = some "sha256:abc" ∧
    Event.buildSpawn "registry.example.com/app@sha256:abc" ∈
      (notify_handler nSuccess wThreeFiles).1 ∧
    ("registry.example.com/app@sha256:abc" =
        repoComponent nSuccess.registry_path ++ "@" ++ "sha256:abc" ∧
      (notify_handler nSuccess wThreeFiles).2.2.container =
        repoComponent nSuccess.registry_path ++ "@" ++ "sha256:abc" ∧
      repoComponent "registry.example.com/app:latest" ++ "@" ++ "sha256:abc" =
        "registry.example.com/app@sha256:abc") := by
  have hmem : Event.buildSpawn "registry.example.com/app@sha256:abc" ∈
      (notify_handler nSuccess wThreeFiles).1 := by
    have hw := wait_first_ok wThreeFiles rfl
    have hb := run_lane_build_ok_eq "registry.example.com/app@sha256:abc" wThreeFiles
      ⟨true, "exit status: 0"⟩ (by rw [hw]) rfl rfl
    simp only [notify_handler]
    norm_num [nSuccess]
    rw [show repoComponent "registry.example.com/app:latest" ++ "@" ++ "sha256:abc" =
      "registry.example.com/app@sha256:abc" from rfl]
    rw [hb]
    simp only []
    rcases heu : (run_lane_export_and_upload wThreeFiles "sha256:abc").2 with e | u
    · simp [hw]
    · simp [hw]
  exact ⟨rfl, rfl, hmem,
    c7_image_resolution nSuccess wThreeFiles "sha256:abc"
      "registry.example.com/app@sha256:abc" rfl rfl hmem⟩

/-- C4: for every successful digested notification where docker became ready
but the build process exited non-zero, the outcome is Failed with HTTP 500,
the response message carries the process's reported exit status, and neither
the export process nor any upload is ever attempted. -/
theorem c4_build_exit_nonzero (n : LaneNotification) (w : World) (digest : String)
    (bst : ExitStatus) (h1 : n.success = true) (h2 : n.digest = some digest)
    (hw : (wait_for_docker w).2 = .ok ()) (hb : w.buildStatus = .ok bst)
    (hbs : bst.success = false) :
    (notify_handler n w).2.1 = 500 ∧
    (notify_handler n w).2.2.status = "Failed" ∧
    (notify_handler n w).2.2.message =
      "❌ Lane build failed: " ++ ("Lane build failed with exit code " ++ bst.display) ∧
    Event.exportSpawn ∉ (notify_handler n w).1 ∧
    (∀ key, Event.putObject key ∉ (notify_handler n w).1) := by
  have hbe := run_lane_build_exit_err (repoComponent n.registry_path ++ "@" ++ digest)
    w bst hw hb hbs
  have hn := notify_build_fail n w digest h1 h2
    ("Lane build failed with exit code " ++ bst.display) (by rw [hbe])
  rw [hn]
  refine ⟨rfl, rfl, by simp, ?_, ?_⟩
  · intro hmem
    simp only at hmem
    rcases run_lane_build_events _ w _ hmem with ⟨t, ht⟩ | h
    · simp at ht
    · simp at h
  · intro key hmem
    simp only at hmem
    rcases run_lane_build_events _ w _ hmem with ⟨t, ht⟩ | h
    · simp at ht
    · simp at h

/-- A world where docker is ready but the build exits with status 1. -/
def wBuildFail : World :=
  { env := envEmpty
    dockerPoll := fun _ => .ok true
    pollDur := fun _ => 0
    buildStatus := .ok ⟨false, "exit status: 1"⟩
    exportStatus := .ok ⟨true, "exit status: 0"⟩
    exportDirExists := true
    entries := []
    now := 0 }

/-- Witness for C4 at a concrete failing build. -/
theorem c4_build_exit_nonzero_witness :
    nSuccess.success = true ∧ nSuccess.digest = some "sha256:abc" ∧
    (wait_for_docker wBuildFail).2 = .ok () ∧
    wBuildFail.buildStatus = .ok ⟨false, "exit status: 1"⟩ ∧
    ((notify_handler nSuccess wBuildFail).2.1 = 500 ∧
      (notify_handler nSuccess wBuildFail).2.2.status = "Failed" ∧
      (notify_handler nSuccess wBuildFail).2.2.message =
        "❌ Lane build failed: " ++ ("Lane build failed with exit code " ++
          (⟨false, "exit status: 1"⟩ : ExitStatus).display) ∧
      Event.exportSpawn ∉ (notify_handler nSuccess wBuildFail).1 ∧
      (∀ key, Event.putObject key ∉ (notify_handler nSuccess wBuildFail).1)) := by
  have hw : (wait_for_docker wBuildFail).2 = .ok () := by
    rw [wait_first_ok wBuildFail rfl]
  exact ⟨rfl, rfl, hw, rfl,
    c4_build_exit_nonzero nSuccess wBuildFail "sha256:abc" ⟨false, "exit status: 1"⟩
      rfl rfl hw rfl rfl⟩

/-- C5: for every run where docker became ready and the build exited 0, if
either the export process exits non-zero or the export directory does not
exist afterwards, the outcome is Partial Success (HTTP 200); and when the
export process exits non-zero, no upload is ever attempted. -/
theorem c5_partial_success (n : LaneNotification) (w : World) (digest : String)
    (bst : ExitStatus) (h1 : n.success = true) (h2 : n.digest = some digest)
    (hw : (wait_for_docker w).2 = .ok ()) (hb : w.buildStatus = .ok bst)
    (hbs : bst.success = true)
    (hcase : (∃ est, w.exportStatus = .ok est ∧ est.success = false) ∨
      w.exportDirExists = false) :
    (notify_handler n w).2.2.status = "Partial Success" ∧
    (notify_handler n w).2.1 = 200 ∧
    ((∃ est, w.exportStatus = .ok est ∧ est.success = false) →
      ∀ key, Event.putObject key ∉ (notify_handler n w).1) := by
  have hbo := run_lane_build_ok_eq (repoComponent n.registry_path ++ "@" ++ digest)
    w bst hw hb hbs
  have heuErr : ∃ e, (run_lane_export_and_upload w digest).2 = .error e := by
    rcases hcase with ⟨est, he, hes⟩ | hd
    · exact ⟨_, by rw [export_spawn_fail_eq w digest est he hes]⟩
    · have hx := eu_err_of_dir_missing w digest hd
      rcases hr : (run_lane_export_and_upload w digest).2 with e | u
      · exact ⟨e, rfl⟩
      · rw [hr] at hx; simp [exOk] at hx
  rcases heuErr with ⟨e, heu⟩
  have hn := notify_partial n w digest h1 h2 "Lane build completed successfully" e
    (by rw [hbo]) heu
  rw [hn]
  refine ⟨rfl, rfl, ?_⟩
  rintro ⟨est, he, hes⟩ key hmem
  simp only [List.mem_append] at hmem
  rcases hmem with hmem | hmem
  · rcases run_lane_build_events _ w _ hmem with ⟨t, ht⟩ | h
    · simp at ht
    · simp at h
  · rw [export_spawn_fail_eq w digest est he hes] at hmem
    simp at hmem

/-- A world where docker is ready, the build exits 0 and the export exits 1. -/
def wExportFail : World :=
  { env := envEmpty
    dockerPoll := fun _ => .ok true
    pollDur := fun _ => 0
    buildStatus := .ok ⟨true, "exit status: 0"⟩
    exportStatus := .ok ⟨false, "exit status: 1"⟩
    exportDirExists := true
    entries := []
    now := 0 }

/-- Witness for C5 at a concrete failing export. -/
theorem c5_partial_success_witness :
    nSuccess.success = true ∧ nSuccess.digest = some "sha256:abc" ∧
    wExportFail.buildStatus = .ok ⟨true, "exit status: 0"⟩ ∧
    wExportFail.exportStatus = .ok ⟨false, "exit status: 1"⟩ ∧
    ((notify_handler nSuccess wExportFail).2.2.status = "Partial Success" ∧
      (notify_handler nSuccess wExportFail).2.1 = 200 ∧
      ((∃ est, wExportFail.exportStatus = .ok est ∧ est.success = false) →
        ∀ key, Event.putObject key ∉ (notify_handler nSuccess wExportFail).1)) := by
  have hw : (wait_for_docker wExportFail).2 = .ok () := by
    rw [wait_first_ok wExportFail rfl]
  exact ⟨rfl, rfl, rfl, rfl,
    c5_partial_success nSuccess wExportFail "sha256:abc" ⟨true, "exit status: 0"⟩
      rfl rfl hw rfl rfl (Or.inl ⟨⟨false, "exit status: 1"⟩, rfl, rfl⟩)⟩

/-- C6: the readiness wait precedes every build spawn, each poll starts
before the 90-second deadline and each poll after the first starts exactly
one second (the fixed interval) after the previous poll ended; and if every
poll within the deadline reports not-ready, the outcome is Failed (HTTP 500)
with the timeout message and no build, export or upload is ever invoked. -/
theorem c6_readiness_wait (n : LaneNotification) (w : World) (digest : String)
    (h1 : n.success = true) (h2 : n.digest = some digest)
    (hp : ∀ t, t < 90 → w.dockerPoll t = .ok false) :
    (notify_handler n w).2.1 = 500 ∧
    (notify_handler n w).2.2.status = "Failed" ∧
    (notify_handler n w).2.2.message = "❌ Lane build failed: " ++ timeoutMsg ∧
    (∀ img, Event.buildSpawn img ∉ (notify_handler n w).1) ∧
    Event.exportSpawn ∉ (notify_handler n w).1 ∧
    (∀ key, Event.putObject key ∉ (notify_handler n w).1) ∧
    (∀ t, Event.dockerPoll t ∈ (notify_handler n w).1 → t < 90) ∧
    (∀ t, Event.dockerPoll t ∈ (notify_handler n w).1 →
      t = 0 ∨ ∃ s, Event.dockerPoll s ∈ (notify_handler n w).1 ∧
        t = s + w.pollDur s + 1) ∧
    (∀ (w2 : World) (img : String), Event.buildSpawn img ∈ (run_lane_build img w2).1 →
      (wait_for_docker w2).2 = .ok ()) := by
  have hto : (wait_for_docker w).2 = .error timeoutMsg := wait_timeout w hp
  have hbe := run_lane_build_wait_err (repoComponent n.registry_path ++ "@" ++ digest)
    w timeoutMsg hto
  have hn := notify_build_fail n w digest h1 h2 timeoutMsg (by rw [hbe])
  have htr : (notify_handler n w).1 = (wait_for_docker w).1 := by
    rw [hn, hbe]
  refine ⟨by rw [hn], by rw [hn], by rw [hn], ?_, ?_, ?_, ?_, ?_, ?_⟩
  · intro img hmem
    rw [htr] at hmem
    rcases wait_events w _ hmem with ⟨t, het, _⟩
    simp at het
  · intro hmem
    rw [htr] at hmem
    rcases wait_events w _ hmem with ⟨t, het, _⟩
    simp at het
  · intro key hmem
    rw [htr] at hmem
    rcases wait_events w _ hmem with ⟨t, het, _⟩
    simp at het
  · intro t hmem
    rw [htr] at hmem
    rcases wait_events w _ hmem with ⟨s, hes, hlt⟩
    simp only [Event.dockerPoll.injEq] at hes
    subst hes
    exact hlt
  · intro t hmem
    rw [htr] at hmem
    rw [htr]
    exact wait_step w t hmem
  · exact fun w2 img h => build_spawn_implies_wait_ok img w2 h

/-- A world where docker never becomes ready. -/
def wTimeout : World :=
  { env := envEmpty
    dockerPoll := fun _ => .ok false
    pollDur := fun _ => 0
    buildStatus := .ok ⟨true, "exit status: 0"⟩
    exportStatus := .ok ⟨true, "exit status: 0"⟩
    exportDirExists := true
    entries := []
    now := 0 }

/-- Witness for C6 at a concrete never-ready world. -/
theorem c6_readiness_wait_witness :
    nSuccess.success = true ∧ nSuccess.digest = some "sha256:abc" ∧
    (∀ t, t < 90 → wTimeout.dockerPoll t = .ok false) ∧
    ((notify_handler nSuccess wTimeout).2.1 = 500 ∧
      (notify_handler nSuccess wTimeout).2.2.status = "Failed" ∧
      (notify_handler nSuccess wTimeout).2.2.message =
        "❌ Lane build failed: " ++ timeoutMsg ∧
      (∀ img, Event.buildSpawn img ∉ (notify_handler nSuccess wTimeout).1) ∧
      Event.exportSpawn ∉ (notify_handler nSuccess wTimeout).1 ∧
      (∀ key, Event.putObject key ∉ (notify_handler nSuccess wTimeout).1) ∧
      (∀ t, Event.dockerPoll t ∈ (notify_handler nSuccess wTimeout).1 → t < 90) ∧
      (∀ t, Event.dockerPoll t ∈ (notify_handler nSuccess wTimeout).1 →
        t = 0 ∨ ∃ s, Event.dockerPoll s ∈ (notify_handler nSuccess wTimeout).1 ∧
          t = s + wTimeout.pollDur s + 1) ∧
      (∀ (w2 : World) (img : String),
        Event.buildSpawn img ∈ (run_lane_build img w2).1 →
          (wait_for_docker w2).2 = .ok ())) :=
  ⟨rfl, rfl, fun _ _ => rfl,
    c6_readiness_wait nSuccess wTimeout "sha256:abc" rfl rfl (fun _ _ => rfl)⟩

/-- C10: if the status-check command of the very first poll fails to execute,
the waiter returns that error immediately (the trace holds exactly that one
poll, so no further polling towards the deadline happens), and the run is
classified as a build-stage Failure: HTTP 500, status Failed, and the
build-failure message carrying the spawn error; no build, export or upload
is invoked. -/
theorem c10_checker_spawn_failure (n : LaneNotification) (w : World) (digest e : String)
    (h1 : n.success = true) (h2 : n.digest = some digest)
    (he : w.dockerPoll 0 = .error e) :
    (notify_handler n w).1 = [Event.dockerPoll 0] ∧
    (notify_handler n w).2.1 = 500 ∧
    (notify_handler n w).2.2.status = "Failed" ∧
    (notify_handler n w).2.2.message = "❌ Lane build failed: " ++ e ∧
    (∀ img, Event.buildSpawn img ∉ (notify_handler n w).1) := by
  have hwe := wait_first_error w e he
  have hto : (wait_for_docker w).2 = .error e := by rw [hwe]
  have hbe := run_lane_build_wait_err (repoComponent n.registry_path ++ "@" ++ digest)
    w e hto
  have hn := notify_build_fail n w digest h1 h2 e (by rw [hbe])
  have htr : (notify_handler n w).1 = [Event.dockerPoll 0] := by
    rw [hn, hbe, hwe]
  refine ⟨htr, by rw [hn], by rw [hn], by rw [hn], ?_⟩
  intro img hmem
  rw [htr] at hmem
  simp at hmem

/-- A world whose `docker info` command cannot be spawned at all. -/
def wPollError : World :=
  { env := envEmpty
    dockerPoll := fun _ => .error "No such file or directory (os error 2)"
    pollDur := fun _ => 0
    buildStatus := .ok ⟨true, "exit status: 0"⟩
    exportStatus := .ok ⟨true, "exit status: 0"⟩
    exportDirExists := true
    entries := []
    now := 0 }

/-- Witness for C10 at a concrete spawn failure of the checker. -/
theorem c10_checker_spawn_failure_witness :
    nSuccess.success = true ∧ nSuccess.digest = some "sha256:abc" ∧
    wPollError.dockerPoll 0 = .error "No such file or directory (os error 2)" ∧
    ((notify_handler nSuccess wPollError).1 = [Event.dockerPoll 0] ∧
      (notify_handler nSuccess wPollError).2.1 = 500 ∧
      (notify_handler nSuccess wPollError).2.2.status = "Failed" ∧
      (notify_handler nSuccess wPollError).2.2.message =
        "❌ Lane build failed: " ++ "No such file or directory (os error 2)" ∧
      (∀ img, Event.buildSpawn img ∉ (notify_handler nSuccess wPollError).1)) :=
  ⟨rfl, rfl, rfl,
    c10_checker_spawn_failure nSuccess wPollError "sha256:abc"
      "No such file or directory (os error 2)" rfl rfl rfl⟩

/-- C1 counterexample: a failed push produces the Failed outcome yet the
HTTP status is 200, not a server-range status — refuting the claim that
every Failure outcome carries a 5xx status. -/
theorem c1_counterexample :
    (notify_handler nPushFailed wDefault).2.2.status = "Failed" ∧
    (notify_handler nPushFailed wDefault).2.1 = 200 :=
  ⟨rfl, rfl⟩

/-- C1 (amended): the HTTP status is 500 exactly when the outcome status is
Failed and the notification reported a successful push (build failure or
dependency timeout), in which case the body carries the build-failure
message; the push-failed Failure and the Success, Warning and Partial
Success outcomes are all reported with HTTP 200. -/
theorem c1_http_status_mapping (n : LaneNotification) (w : World) :
    ((notify_handler n w).2.1 = 500 ↔
      ((notify_handler n w).2.2.status = "Failed" ∧ n.success = true)) ∧
    ((notify_handler n w).2.1 = 200 ∨ (notify_handler n w).2.1 = 500) ∧
    (((notify_handler n w).2.2.status = "Success" ∨
      (notify_handler n w).2.2.status = "Warning" ∨
      (notify_handler n w).2.2.status = "Partial Success") →
      (notify_handler n w).2.1 = 200) ∧
    ((notify_handler n w).2.1 = 500 →
      ∃ e, (notify_handler n w).2.2.message = "❌ Lane build failed: " ++ e) := by
  by_cases hs : n.success = true
  · rcases hd : n.digest with _ | digest
    · simp only [notify_handler, hs, hd, if_true]
      exact ⟨by simp [hs], by simp, by simp, by simp⟩
    · rcases hb : (run_lane_build (repoComponent n.registry_path ++ "@" ++ digest) w).2
        with e | o
      · have hn := notify_build_fail n w digest hs hd e hb
        rw [hn]
        refine ⟨by simp [hs], Or.inr rfl, ?_, fun _ => ⟨e, rfl⟩⟩
        rintro (h | h | h) <;> simp at h
      · rcases heu : (run_lane_export_and_upload w digest).2 with e | u
        · have hn := notify_partial n w digest hs hd o e hb heu
          rw [hn]
          refine ⟨by simp, Or.inl rfl, fun _ => rfl, by simp⟩
        · cases u
          have hn := notify_success n w digest hs hd o hb heu
          rw [hn]
          refine ⟨by simp, Or.inl rfl, fun _ => rfl, by simp⟩
  · simp only [Bool.not_eq_true] at hs
    simp only [notify_handler, hs, Bool.false_eq_true, if_false]
    exact ⟨by simp [hs], by simp, by simp, by simp⟩

/-- Witness for C1 (amended) at the concrete failed-push notification. -/
theorem c1_http_status_mapping_witness :
    ((notify_handler nPushFailed wDefault).2.1 = 500 ↔
      ((notify_handler nPushFailed wDefault).2.2.status = "Failed" ∧
        nPushFailed.success = true)) ∧
    ((notify_handler nPushFailed wDefault).2.1 = 200 ∨
      (notify_handler nPushFailed wDefault).2.1 = 500) ∧
    (((notify_handler nPushFailed wDefault).2.2.status = "Success" ∨
      (notify_handler nPushFailed wDefault).2.2.status = "Warning" ∨
      (notify_handler nPushFailed wDefault).2.2.status = "Partial Success") →
      (notify_handler nPushFailed wDefault).2.1 = 200) ∧
    ((notify_handler nPushFailed wDefault).2.1 = 500 →
      ∃ e, (notify_handler nPushFailed wDefault).2.2.message =
        "❌ Lane build failed: " ++ e) :=
  c1_http_status_mapping nPushFailed wDefault

/-- C2 counterexample: with the export directory present but no storage
credentials in the environment, the uploader returns an error — refuting the
claim that it errors only when the local export directory does not exist. -/
theorem c2_counterexample :
    wDefault.exportDirExists = true ∧
    (upload_to_tigris wDefault "sha256:abc").2 =
      .error "AWS_ACCESS_KEY_ID or TIGRIS_ACCESS_KEY_ID environment variable not set" :=
  ⟨rfl, rfl⟩

/-- C2 (amended): assuming the storage credentials are resolvable from the
environment and every file name is valid UTF-8, the uploader errors exactly
when the export directory does not exist; otherwise it returns the summary
counting, independently and without aborting the enumeration, the files
whose upload succeeded and the files whose upload failed; in particular in
the healthy three-file world where one upload fails, the summary is
`uploaded = 2, failed = 1` and the overall pipeline outcome is still
Success with HTTP 200. -/
theorem c2_upload_summary (w : World) (digest : String)
    (hacc : (getCredential w.env.aws_access_key_id w.env.tigris_access_key_id).isSome = true)
    (hsec : (getCredential w.env.aws_secret_access_key w.env.tigris_secret_access_key).isSome = true)
    (hnames : ∀ f ∈ w.entries, f.isFile = true → f.name.isSome = true) :
    (exOk (upload_to_tigris w digest).2 = false ↔ w.exportDirExists = false) ∧
    (w.exportDirExists = true →
      (upload_to_tigris w digest).2 =
        .ok ((w.entries.filter (fun f => f.isFile && exOk (uploadOutcome digest f))).length,
             (w.entries.filter (fun f => f.isFile && !exOk (uploadOutcome digest f))).length)) ∧
    ((upload_to_tigris wThreeFiles "sha256:abc").2 = .ok (2, 1) ∧
      (notify_handler nSuccess wThreeFiles).2.1 = 200 ∧
      (notify_handler nSuccess wThreeFiles).2.2.status = "Success") := by
  have hcounts : w.exportDirExists = true →
      (upload_to_tigris w digest).2 =
        .ok ((w.entries.filter (fun f => f.isFile && exOk (uploadOutcome digest f))).length,
             (w.entries.filter (fun f => f.isFile && !exOk (uploadOutcome digest f))).length) := by
    intro hd
    rw [upload_to_tigris_loop_eq w digest hacc hsec hd]
    rw [uploadLoop_counts digest w.entries 0 0 hnames]
    simp
  refine ⟨?_, hcounts, ?_, ?_, ?_⟩
  · by_cases hd : w.exportDirExists
    · rw [hcounts hd]
      simp [exOk, hd]
    · simp only [Bool.not_eq_true] at hd
      have hx := upload_err_of_dir_missing w digest hd
      simp [hx, hd]
  · rfl
  · have hw : (wait_for_docker wThreeFiles).2 = .ok () := by
      rw [wait_first_ok wThreeFiles rfl]
    have hbo := run_lane_build_ok_eq
      (repoComponent nSuccess.registry_path ++ "@" ++ "sha256:abc") wThreeFiles
      ⟨true, "exit status: 0"⟩ hw rfl rfl
    have hn := notify_success nSuccess wThreeFiles "sha256:abc" rfl rfl
      "Lane build completed successfully" (by rw [hbo]) rfl
    rw [hn]
  · have hw : (wait_for_docker wThreeFiles).2 = .ok () := by
      rw [wait_first_ok wThreeFiles rfl]
    have hbo := run_lane_build_ok_eq
      (repoComponent nSuccess.registry_path ++ "@" ++ "sha256:abc") wThreeFiles
      ⟨true, "exit status: 0"⟩ hw rfl rfl
    have hn := notify_success nSuccess wThreeFiles "sha256:abc" rfl rfl
      "Lane build completed successfully" (by rw [hbo]) rfl
    rw [hn]

/-- Witness for C2 (amended) at the healthy three-file world. -/
theorem c2_upload_summary_witness :
    (getCredential wThreeFiles.env.aws_access_key_id
        wThreeFiles.env.tigris_access_key_id).isSome = true ∧
    (getCredential wThreeFiles.env.aws_secret_access_key
        wThreeFiles.env.tigris_secret_access_key).isSome = true ∧
    (∀ f ∈ wThreeFiles.entries, f.isFile = true → f.name.isSome = true) ∧
    ((exOk (upload_to_tigris wThreeFiles "sha256:abc").2 = false ↔
        wThreeFiles.exportDirExists = false) ∧
      (wThreeFiles.exportDirExists = true →
        (upload_to_tigris wThreeFiles "sha256:abc").2 =
          .ok ((wThreeFiles.entries.filter
                  (fun f => f.isFile && exOk (uploadOutcome "sha256:abc" f))).length,
               (wThreeFiles.entries.filter
                  (fun f => f.isFile && !exOk (uploadOutcome "sha256:abc" f))).length)) ∧
      ((upload_to_tigris wThreeFiles "sha256:abc").2 = .ok (2, 1) ∧
        (notify_handler nSuccess wThreeFiles).2.1 = 200 ∧
        (notify_handler nSuccess wThreeFiles).2.2.status = "Success")) :=
  ⟨rfl, rfl, by decide,
    c2_upload_summary wThreeFiles "sha256:abc" rfl rfl (by decide)⟩

/-- C3 counterexample: a put response with status 201 — a 2xx success — is
treated as that file's failure, refuting the claim that the upload succeeds
if and only if the put returns a 2xx response. -/
theorem c3_counterexample :
    (200 ≤ 201 ∧ 201 < 300) ∧
    upload_file filePut201 ("sha256:abc" ++ "/" ++ "a.tar") =
      .error ("Upload failed with status code: " ++ toString 201) ∧
    upload_file filePut201 ("sha256:abc" ++ "/" ++ "a.tar") ≠ .ok () := by
  refine ⟨by decide, rfl, ?_⟩
  intro h
  simp [upload_file, filePut201] at h

/-- C3 (amended): a single-file upload succeeds if and only if the metadata
and read calls succeed and the object-storage put returns HTTP status
exactly 200; any other status (2xx included) or transport error is that
file's failure, and a failure never aborts the enumeration: with valid
names, credentials and directory, every file entry still gets its upload
attempted. -/
theorem c3_upload_file_iff :
    (∀ (f : FileData) (s3_key : String),
      (upload_file f s3_key = .ok () ↔
        ((∃ sz, f.meta = .ok sz) ∧ f.content = .ok () ∧ f.putStatus = .ok 200))) ∧
    (∀ (w : World) (digest : String),
      (∀ f ∈ w.entries, f.isFile = true → f.name.isSome = true) →
      (getCredential w.env.aws_access_key_id w.env.tigris_access_key_id).isSome = true →
      (getCredential w.env.aws_secret_access_key w.env.tigris_secret_access_key).isSome = true →
      w.exportDirExists = true →
      ∀ f ∈ w.entries, f.isFile = true → ∀ nm, f.name = some nm →
        Event.putObject (digest ++ "/" ++ nm) ∈ (upload_to_tigris w digest).1) := by
  constructor
  · intro f s3_key
    rcases hm : f.meta with e | sz
    · simp [upload_file, hm]
    · rcases hc : f.content with e | c
      · simp [upload_file, hm, hc]
      · rcases hp : f.putStatus with e | code
        · simp [upload_file, hm, hc, hp]
        · by_cases h200 : code = 200
          · subst h200
            simp [upload_file, hm, hc, hp]
          · simp [upload_file, hm, hc, hp, h200]
  · intro w digest hnames hacc hsec hd f hf hfile nm hnm
    rw [upload_to_tigris_loop_eq w digest hacc hsec hd]
    exact uploadLoop_attempts digest w.entries 0 0 hnames f hf hfile nm hnm

/-- Witness for C3 (amended): the failing middle file of the three-file
world still has its successor enumerated, and the iff holds at a concrete
file. -/
theorem c3_upload_file_iff_witness :
    (upload_file (fileOk "a.tar") ("sha256:abc" ++ "/" ++ "a.tar") = .ok () ↔
      ((∃ sz, (fileOk "a.tar").meta = .ok sz) ∧ (fileOk "a.tar").content = .ok () ∧
        (fileOk "a.tar").putStatus = .ok 200)) ∧
    (∀ f ∈ wThreeFiles.entries, f.isFile = true → f.name.isSome = true) ∧
    Event.putObject ("sha256:abc" ++ "/" ++ "c.tar") ∈
      (upload_to_tigris wThreeFiles "sha256:abc").1 :=
  ⟨c3_upload_file_iff.1 (fileOk "a.tar") ("sha256:abc" ++ "/" ++ "a.tar"),
    by decide,
    c3_upload_file_iff.2 wThreeFiles "sha256:abc" (by decide) rfl rfl rfl
      (fileOk "c.tar") (by simp [wThreeFiles]) rfl "c.tar" rfl⟩

end NotificationServer
